import Mathlib

/-!
Shallow embedding of `geyser-plugin-manager/src/accounts_update_notifier.rs`:
the accounts-update notification fanout engine (`AccountsUpdateNotifierImpl`),
its optional asynchronous dispatch queue (`AsyncAccountsDispatch` over a bounded
crossbeam channel), the background drain worker (`run_async_dispatch`), and the
per-plugin fanout loops.

Modelling conventions:
- `Pubkey`, `Signature` and the `SanitizedTransaction` reference are modelled as
  `Nat` identifiers; cloning an account or a transaction is the identity on the
  modelled value (the Rust clone produces an equal value).
- `u64` arithmetic (`write_version`) is `Nat` with `saturatingAdd` capping at
  `U64_MAX`, mirroring `u64::saturating_add`.
- Side effects (plugin callbacks, error/trace logs, metric counter increments,
  view constructions, envelope hand-off to the fanout) are reified as a trace:
  a `List Event` returned by each operation, in program order.
- The crossbeam bounded channel is modelled by its observable state: the FIFO
  list of queued messages, a capacity, whether the (unique) sender handle held
  in the `Mutex<Option<Sender>>` is still present, and whether the receiver
  (owned by the worker thread) is still alive.  `try_send` is a total function:
  it never blocks, returning `Full` on a full channel and `Disconnected` when
  the sender handle was taken or the receiver is gone.
- The worker thread's `while let Ok(message) = receiver.recv()` loop is split
  into `recv` (one blocking receive: yields a message, or `closed` exactly when
  the channel is disconnected and drained, or `blocked` when it would suspend)
  and `run_async_dispatch` (the post-closure drain: the messages the worker
  still processes, in FIFO order, once the sender is gone).
- `enqueue_at : Instant` and the measured latencies are real-time values; the
  trace records the corresponding counter increments but not the durations.
-/

namespace AgaveGeyser

abbrev Slot := Nat

abbrev Pubkey := Nat

abbrev Signature := Nat

/-- Model of a `SanitizedTransaction` reference: an opaque identifier. -/
abbrev Txn := Nat

/-- `u64::MAX`. -/
def U64_MAX : Nat := 2 ^ 64 - 1

/-- `u64::saturating_add` on the modelled `Nat` values. -/
def saturatingAdd (a b : Nat) : Nat := min (a + b) U64_MAX

/-- The fields of `AccountSharedData` read by this module
(via the `ReadableAccount` trait). -/
structure AccountSharedData where
  lamports : Nat
  owner : Pubkey
  executable : Bool
  rent_epoch : Nat
  data : List Nat
  deriving DecidableEq, Repr

/-- `AccountForGeyser`: the account form handed to
`notify_account_restore_from_snapshot`. -/
structure AccountForGeyser where
  pubkey : Pubkey
  lamports : Nat
  owner : Pubkey
  executable : Bool
  rent_epoch : Nat
  data : List Nat
  deriving DecidableEq, Repr

/-- `ReplicaAccountInfoV3`: the view projection handed to plugins. -/
structure ReplicaAccountInfoV3 where
  pubkey : Pubkey
  lamports : Nat
  owner : Pubkey
  executable : Bool
  rent_epoch : Nat
  data : List Nat
  write_version : Nat
  txn : Option Txn
  deriving DecidableEq, Repr

/-- `ReplicaTransactionAccountsInfo`: the grouped batch view. -/
structure ReplicaTransactionAccountsInfo where
  signature : Signature
  slot : Slot
  index : Nat
  accounts : List ReplicaAccountInfoV3
  deriving DecidableEq, Repr

/-- `QueuedAccountUpdate`: the envelope placed on the dispatch queue.
The `enqueue_at : Instant` field is real time and is not modelled. -/
structure QueuedAccountUpdate where
  slot : Slot
  pubkey : Pubkey
  account : AccountSharedData
  txn : Option Txn
  write_version : Nat
  is_startup : Bool
  deriving DecidableEq, Repr

/-- `DispatchMessage`: the tagged union queued on the channel. -/
inductive DispatchMessage where
  | Account (update : QueuedAccountUpdate)
  deriving DecidableEq, Repr

/-- Result of a plugin callback (`Result<(), GeyserPluginError>`). -/
abbrev PluginCallResult := Except String Unit

instance : DecidableEq PluginCallResult := fun a b =>
  match a, b with
  | .ok (), .ok () => isTrue rfl
  | .error e, .error f =>
      if h : e = f then isTrue (by rw [h]) else isFalse (fun hh => h (by cases hh; rfl))
  | .ok _, .error _ => isFalse (fun h => by cases h)
  | .error _, .ok _ => isFalse (fun h => by cases h)

instance {e : Type} [DecidableEq e] : DecidableEq (Except e Unit) := fun a b =>
  match a, b with
  | .ok (), .ok () => isTrue rfl
  | .error x, .error y =>
      if h : x = y then isTrue (by rw [h]) else isFalse (fun hh => h (by cases hh; rfl))
  | .ok _, .error _ => isFalse (fun h => by cases h)
  | .error _, .ok _ => isFalse (fun h => by cases h)

/-- A registered geyser plugin, modelled by its name, its (pure) callback
behaviour and its capability declarations. -/
structure GeyserPlugin where
  name : String
  update_account : ReplicaAccountInfoV3 → Slot → Bool → PluginCallResult
  notify_end_of_startup : PluginCallResult
  notify_transaction_accounts : ReplicaTransactionAccountsInfo → PluginCallResult
  transaction_accounts_notifications_enabled : Bool
  transaction_accounts_include_readonly_owners : List Pubkey

/-- One observable step of the notifier, in program order. -/
inductive Event where
  /-- A `ReplicaAccountInfoV3` view was constructed. -/
  | viewConstructed (info : ReplicaAccountInfoV3)
  /-- `notify_plugins_of_account_update_inner` (the fanout notifier) was
  entered with this view, slot and startup flag. -/
  | fanout (info : ReplicaAccountInfoV3) (slot : Slot) (is_startup : Bool)
  /-- `plugin.update_account` was invoked and returned `result`. -/
  | updateCall (plugin : String) (info : ReplicaAccountInfoV3) (slot : Slot)
      (is_startup : Bool) (result : PluginCallResult)
  /-- The error log line of the `update_account` match arm. -/
  | logUpdateError (plugin : String) (pubkey : Pubkey) (slot : Slot) (err : String)
  /-- The trace log line of the `update_account` match arm. -/
  | logUpdateOk (plugin : String) (pubkey : Pubkey) (slot : Slot)
  /-- `plugin.notify_end_of_startup` was invoked and returned `result`. -/
  | endOfStartupCall (plugin : String) (result : PluginCallResult)
  /-- The error log line of the end-of-startup match arm. -/
  | logEndOfStartupError (plugin : String) (err : String)
  /-- The trace log line of the end-of-startup match arm. -/
  | logEndOfStartupOk (plugin : String)
  /-- `plugin.notify_transaction_accounts` was invoked and returned `result`. -/
  | txAccountsCall (plugin : String) (info : ReplicaTransactionAccountsInfo)
      (result : PluginCallResult)
  /-- The error log line of the transaction-accounts match arm. -/
  | logTxAccountsError (plugin : String) (signature : Signature) (slot : Slot)
      (err : String)
  /-- The trace log line of the transaction-accounts match arm. -/
  | logTxAccountsOk (plugin : String) (signature : Signature) (slot : Slot)
  /-- A named metric counter was incremented (`inc_new_counter_*`). -/
  | counterInc (counter : String)
  deriving DecidableEq, Repr

/-- The body of the fanout loop for one plugin: invoke `update_account`, log
the outcome, bump the per-call counter. -/
def updateAccountLoopBody (account : ReplicaAccountInfoV3) (slot : Slot)
    (is_startup : Bool) (plugin : GeyserPlugin) : List Event :=
  let result := plugin.update_account account slot is_startup
  [Event.updateCall plugin.name account slot is_startup result,
   match result with
   | .error err => Event.logUpdateError plugin.name account.pubkey slot err
   | .ok _ => Event.logUpdateOk plugin.name account.pubkey slot,
   Event.counterInc "geyser-plugin-update-account-us"]

/-- `notify_plugins_of_account_update_inner`: the fanout notifier.  Emits the
entry event, then — unless the plugin set is empty, in which case it returns
early — invokes every plugin's `update_account` in order, logging each outcome
and bumping the per-call counter, and finally bumps the whole-call counter. -/
def notify_plugins_of_account_update_inner (plugins : List GeyserPlugin)
    (account : ReplicaAccountInfoV3) (slot : Slot) (is_startup : Bool) : List Event :=
  Event.fanout account slot is_startup ::
  if plugins.isEmpty then []
  else
    plugins.flatMap (updateAccountLoopBody account slot is_startup) ++
    [Event.counterInc "geyser-plugin-notify_plugins_of_account_update-us"]

/-- The view the drain worker builds from a queued envelope. -/
def viewOfQueuedUpdate (update : QueuedAccountUpdate) : ReplicaAccountInfoV3 :=
  { pubkey := update.pubkey
    lamports := update.account.lamports
    owner := update.account.owner
    executable := update.account.executable
    rent_epoch := update.account.rent_epoch
    data := update.account.data
    write_version := update.write_version
    txn := update.txn }

/-- The body the worker runs for one received `DispatchMessage`. -/
def processMessage (plugins : List GeyserPlugin) : DispatchMessage → List Event
  | .Account update =>
    Event.counterInc "geyser-plugin-async-account-dispatch-latency-us" ::
    Event.viewConstructed (viewOfQueuedUpdate update) ::
    notify_plugins_of_account_update_inner plugins (viewOfQueuedUpdate update)
      update.slot update.is_startup ++
    [Event.counterInc "geyser-plugin-async-account-dispatch-drained"]

/-- `run_async_dispatch` after closure: the worker drains the remaining queue
in FIFO order, processing each message, then its `recv` fails and it exits. -/
def run_async_dispatch (plugins : List GeyserPlugin) : List DispatchMessage → List Event
  | [] => []
  | message :: rest => processMessage plugins message ++ run_async_dispatch plugins rest

/-- The outcome of one blocking `receiver.recv()` as a function of the channel
state: the head message if one is queued; `closed` (the `Err` that ends the
worker loop) exactly when the queue is empty and the sender side is gone;
otherwise the worker stays suspended. -/
inductive RecvResult where
  | msg (m : DispatchMessage)
  | closed
  | blocked
  deriving DecidableEq, Repr

/-- One blocking receive on the channel state. -/
def recv (queue : List DispatchMessage) (senderPresent : Bool) : RecvResult :=
  match queue with
  | m :: _ => .msg m
  | [] => if senderPresent then .blocked else .closed

/-- `TrySendError` (the payload is returned to the caller and dropped). -/
inductive TrySendError where
  | Full
  | Disconnected
  deriving DecidableEq, Repr

/-- `AsyncAccountsDispatch` together with the observable state of its bounded
channel: `sender`/`thread_hdl` model the two `Mutex<Option<_>>` handles,
`queue` the FIFO contents, `capacity` the bound fixed at construction, and
`receiverAlive` whether the worker's receiver end still exists. -/
structure AsyncAccountsDispatch where
  sender : Option Unit
  thread_hdl : Option Unit
  queue : List DispatchMessage
  capacity : Nat
  receiverAlive : Bool
  deriving DecidableEq, Repr

def ASYNC_ACCOUNTS_DISPATCH_CHANNEL_CAPACITY : Nat := 16384

/-- `AsyncAccountsDispatch::try_send`: with the sender handle absent the
message is rejected as `Disconnected`; otherwise `Sender::try_send` rejects
with `Disconnected` when the receiver is gone, rejects with `Full` at
capacity, and otherwise appends the message to the queue.  Total: it never
suspends the caller. -/
def AsyncAccountsDispatch.try_send (d : AsyncAccountsDispatch) (m : DispatchMessage) :
    Except TrySendError Unit × AsyncAccountsDispatch :=
  match d.sender with
  | some _ =>
      if d.receiverAlive = false then (.error .Disconnected, d)
      else if d.capacity ≤ d.queue.length then (.error .Full, d)
      else (.ok (), { d with queue := d.queue ++ [m] })
  | none => (.error .Disconnected, d)

/-- `AsyncAccountsDispatch::stop`: take (drop) the sender handle first, then
take and join the worker thread if it is still held.  Joining blocks until the
worker has drained the queue (`run_async_dispatch` on the remaining messages)
and exited, after which the receiver end is gone.  The returned trace is what
the worker delivered during the join. -/
def AsyncAccountsDispatch.stop (d : AsyncAccountsDispatch) (plugins : List GeyserPlugin) :
    AsyncAccountsDispatch × List Event :=
  let d1 := { d with sender := none }
  match d1.thread_hdl with
  | some _ =>
      ({ d1 with thread_hdl := none, queue := [], receiverAlive := false },
       run_async_dispatch plugins d1.queue)
  | none => (d1, [])

/-- The operations that touch an `AsyncAccountsDispatch` after construction. -/
inductive DispatchOp where
  | trySendOp (m : DispatchMessage)
  | stopOp

/-- Run a sequence of dispatch operations, discarding results and traces. -/
def applyOps (plugins : List GeyserPlugin) (d : AsyncAccountsDispatch) :
    List DispatchOp → AsyncAccountsDispatch
  | [] => d
  | .trySendOp m :: rest => applyOps plugins (d.try_send m).2 rest
  | .stopOp :: rest => applyOps plugins (d.stop plugins).1 rest

/-- `AccountsUpdateNotifierImpl`.  The `plugin_manager`'s read-locked plugin
list is modelled as the list of plugins visible to every fanout. -/
structure AccountsUpdateNotifierImpl where
  plugins : List GeyserPlugin
  snapshot_notifications_enabled : Bool
  async_dispatch : Option AsyncAccountsDispatch
  enable_transaction_accounts_notify : Bool

/-- `AccountsUpdateNotifierImpl::new`: in async mode a bounded channel of the
fixed capacity is created and the worker thread spawned. -/
def AccountsUpdateNotifierImpl.new (plugins : List GeyserPlugin)
    (snapshot_notifications_enabled : Bool) (accounts_notify_async : Bool)
    (enable_transaction_accounts_notify : Bool) : AccountsUpdateNotifierImpl :=
  { plugins := plugins
    snapshot_notifications_enabled := snapshot_notifications_enabled
    async_dispatch :=
      if accounts_notify_async then
        some { sender := some ()
               thread_hdl := some ()
               queue := []
               capacity := ASYNC_ACCOUNTS_DISPATCH_CHANNEL_CAPACITY
               receiverAlive := true }
      else none
    enable_transaction_accounts_notify := enable_transaction_accounts_notify }

/-- `accountinfo_from_shared_account_data`. -/
def accountinfo_from_shared_account_data (account : AccountSharedData)
    (txn : Option Txn) (pubkey : Pubkey) (write_version : Nat) : ReplicaAccountInfoV3 :=
  { pubkey := pubkey
    lamports := account.lamports
    owner := account.owner
    executable := account.executable
    rent_epoch := account.rent_epoch
    data := account.data
    write_version := write_version
    txn := txn }

/-- `accountinfo_from_account_for_geyser` (write_version populated afterwards). -/
def accountinfo_from_account_for_geyser (account : AccountForGeyser) : ReplicaAccountInfoV3 :=
  { pubkey := account.pubkey
    lamports := account.lamports
    owner := account.owner
    executable := account.executable
    rent_epoch := account.rent_epoch
    data := account.data
    write_version := 0
    txn := none }

/-- The envelope `notify_account_update` builds: the cloned account and the
cloned transaction reference, with `is_startup: false`. -/
def accountUpdateMessage (slot : Slot) (account : AccountSharedData) (txn : Option Txn)
    (pubkey : Pubkey) (write_version : Nat) : DispatchMessage :=
  .Account
    { slot := slot
      pubkey := pubkey
      account := account
      txn := txn
      write_version := write_version
      is_startup := false }

/-- `notify_account_update`: in async mode, clone the account into an envelope
and `try_send` it; on acceptance bump the queued counter and return.  On
`Full`/`Disconnected` bump the matching counter and fall through to the
synchronous path, which builds the view inline and runs the fanout with
`is_startup = false`. -/
def AccountsUpdateNotifierImpl.notify_account_update (self : AccountsUpdateNotifierImpl)
    (slot : Slot) (account : AccountSharedData) (txn : Option Txn) (pubkey : Pubkey)
    (write_version : Nat) : AccountsUpdateNotifierImpl × List Event :=
  let syncEvents : List Event :=
    let account_info := accountinfo_from_shared_account_data account txn pubkey write_version
    Event.viewConstructed account_info ::
    notify_plugins_of_account_update_inner self.plugins account_info slot false
  match self.async_dispatch with
  | some dispatch =>
      let message := accountUpdateMessage slot account txn pubkey write_version
      match dispatch.try_send message with
      | (.ok (), dispatch1) =>
          ({ self with async_dispatch := some dispatch1 },
           [Event.counterInc "geyser-plugin-async-account-dispatch-queued"])
      | (.error .Full, dispatch1) =>
          ({ self with async_dispatch := some dispatch1 },
           Event.counterInc "geyser-plugin-async-account-dispatch-overflow" :: syncEvents)
      | (.error .Disconnected, dispatch1) =>
          ({ self with async_dispatch := some dispatch1 },
           Event.counterInc "geyser-plugin-async-account-dispatch-disconnected" :: syncEvents)
  | none => (self, syncEvents)

/-- `notify_account_restore_from_snapshot`: always inline — builds the view
from the `AccountForGeyser`, overwrites its `write_version` with the caller's,
and runs the fanout with `is_startup = true`.  The surrounding debug-level
timing counters are not modelled (they record durations, gated on log level). -/
def AccountsUpdateNotifierImpl.notify_account_restore_from_snapshot
    (self : AccountsUpdateNotifierImpl) (slot : Slot) (write_version : Nat)
    (account : AccountForGeyser) : AccountsUpdateNotifierImpl × List Event :=
  let account1 := { accountinfo_from_account_for_geyser account with write_version := write_version }
  (self,
   Event.viewConstructed account1 ::
   notify_plugins_of_account_update_inner self.plugins account1 slot true)

/-- The body of the end-of-restore loop for one plugin. -/
def endOfStartupLoopBody (plugin : GeyserPlugin) : List Event :=
  let result := plugin.notify_end_of_startup
  [Event.endOfStartupCall plugin.name result,
   match result with
   | .error err => Event.logEndOfStartupError plugin.name err
   | .ok _ => Event.logEndOfStartupOk plugin.name,
   Event.counterInc "geyser-plugin-end-of-restore-from-snapshot"]

/-- `notify_end_of_restore_from_snapshot`: early return on an empty plugin
set, else call every plugin's `notify_end_of_startup` in order, logging each
outcome and bumping the per-call counter. -/
def AccountsUpdateNotifierImpl.notify_end_of_restore_from_snapshot
    (self : AccountsUpdateNotifierImpl) : List Event :=
  if self.plugins.isEmpty then []
  else self.plugins.flatMap endOfStartupLoopBody

/-- The batch of `ReplicaAccountInfoV3` built by `notify_transaction_accounts`:
the i-th account gets `write_version_start.saturating_add(i)` and no txn. -/
def buildTransactionAccountInfos (accounts : List (Pubkey × AccountSharedData))
    (write_version_start : Nat) : List ReplicaAccountInfoV3 :=
  accounts.enum.map (fun p =>
    { pubkey := p.2.1
      lamports := p.2.2.lamports
      owner := p.2.2.owner
      executable := p.2.2.executable
      rent_epoch := p.2.2.rent_epoch
      data := p.2.2.data
      write_version := saturatingAdd write_version_start p.1
      txn := none })

/-- The body of the transaction-accounts loop for one plugin: skip it unless
its capability query opts in, else invoke its callback, log, and count. -/
def txAccountsLoopBody (transaction_accounts_info : ReplicaTransactionAccountsInfo)
    (signature : Signature) (slot : Slot) (plugin : GeyserPlugin) : List Event :=
  if !plugin.transaction_accounts_notifications_enabled then []
  else
    let result := plugin.notify_transaction_accounts transaction_accounts_info
    [Event.txAccountsCall plugin.name transaction_accounts_info result,
     match result with
     | .error err => Event.logTxAccountsError plugin.name signature slot err
     | .ok _ => Event.logTxAccountsOk plugin.name signature slot,
     Event.counterInc "geyser-plugin-notify-transaction-accounts-us"]

/-- `notify_transaction_accounts`: no-op unless the feature is enabled and the
plugin set is non-empty; builds the batch views, then invokes
`notify_transaction_accounts` only on plugins whose capability query opts in,
logging each outcome and bumping the per-call counter. -/
def AccountsUpdateNotifierImpl.notify_transaction_accounts
    (self : AccountsUpdateNotifierImpl) (slot : Slot) (signature : Signature)
    (transaction_index : Nat) (accounts : List (Pubkey × AccountSharedData))
    (write_version_start : Nat) : List Event :=
  if !self.enable_transaction_accounts_notify then []
  else if self.plugins.isEmpty then []
  else
    let account_infos := buildTransactionAccountInfos accounts write_version_start
    let transaction_accounts_info : ReplicaTransactionAccountsInfo :=
      { signature := signature
        slot := slot
        index := transaction_index
        accounts := account_infos }
    account_infos.map Event.viewConstructed ++
    self.plugins.flatMap (txAccountsLoopBody transaction_accounts_info signature slot)

/-- `transaction_accounts_notifications_enabled` (engine-level query). -/
def AccountsUpdateNotifierImpl.transaction_accounts_notifications_enabled
    (self : AccountsUpdateNotifierImpl) : Bool :=
  if !self.enable_transaction_accounts_notify then false
  else self.plugins.any (fun plugin => plugin.transaction_accounts_notifications_enabled)

/-- `transaction_accounts_include_readonly_owners`: concatenate every plugin's
declared owner list, sort, and deduplicate adjacent equals.  Rust's stable
`Vec::sort` is modelled by `List.insertionSort (· ≤ ·)` (on a linear order any
sort by `≤` yields the same list), and `Vec::dedup` by `rustDedup`. -/
def rustDedup : List Pubkey → List Pubkey
  | [] => []
  | [a] => [a]
  | a :: b :: rest => if a = b then rustDedup (b :: rest) else a :: rustDedup (b :: rest)

def AccountsUpdateNotifierImpl.transaction_accounts_include_readonly_owners
    (self : AccountsUpdateNotifierImpl) : List Pubkey :=
  if !self.enable_transaction_accounts_notify then []
  else
    rustDedup (List.insertionSort (· ≤ ·)
      (self.plugins.flatMap (fun plugin => plugin.transaction_accounts_include_readonly_owners)))

/-- Per-plugin `update_account` invocations (plugin name and result), in trace
order. -/
def updateCalls (events : List Event) : List (String × PluginCallResult) :=
  events.filterMap (fun e =>
    match e with
    | .updateCall plugin _ _ _ result => some (plugin, result)
    | _ => none)

/-- Hand-offs to the fanout notifier (view, slot, startup flag), in trace
order. -/
def fanoutCalls (events : List Event) : List (ReplicaAccountInfoV3 × Slot × Bool) :=
  events.filterMap (fun e =>
    match e with
    | .fanout info slot is_startup => some (info, slot, is_startup)
    | _ => none)

/-- Per-plugin `notify_transaction_accounts` invocations (plugin name and the
batch delivered), in trace order. -/
def txAccountsCalls (events : List Event) : List (String × ReplicaTransactionAccountsInfo) :=
  events.filterMap (fun e =>
    match e with
    | .txAccountsCall plugin info _ => some (plugin, info)
    | _ => none)

/-- Views constructed during the trace. -/
def viewsConstructed (events : List Event) : List ReplicaAccountInfoV3 :=
  events.filterMap (fun e =>
    match e with
    | .viewConstructed info => some info
    | _ => none)

/-- Whether an event is an increment of the named counter. -/
def isCounterInc (name : String) : Event → Bool
  | .counterInc c => c == name
  | _ => false

/-- Number of increments of the named counter in the trace. -/
def counterCount (name : String) (events : List Event) : Nat :=
  events.countP (isCounterInc name)

/-- The fanout hand-off the drain worker performs for one queued message. -/
def msgFanout : DispatchMessage → ReplicaAccountInfoV3 × Slot × Bool
  | .Account update => (viewOfQueuedUpdate update, update.slot, update.is_startup)

/-! ### Trace extractor lemmas -/

lemma fanoutCalls_cons_counter (name : String) (evs : List Event) :
    fanoutCalls (Event.counterInc name :: evs) = fanoutCalls evs := rfl

lemma fanoutCalls_cons_view (v : ReplicaAccountInfoV3) (evs : List Event) :
    fanoutCalls (Event.viewConstructed v :: evs) = fanoutCalls evs := rfl

lemma updateCalls_append (a b : List Event) :
    updateCalls (a ++ b) = updateCalls a ++ updateCalls b := by
  simp [updateCalls, List.filterMap_append]

lemma fanoutCalls_append (a b : List Event) :
    fanoutCalls (a ++ b) = fanoutCalls a ++ fanoutCalls b := by
  simp [fanoutCalls, List.filterMap_append]

lemma txAccountsCalls_append (a b : List Event) :
    txAccountsCalls (a ++ b) = txAccountsCalls a ++ txAccountsCalls b := by
  simp [txAccountsCalls, List.filterMap_append]

lemma updateCalls_loopBody (account : ReplicaAccountInfoV3) (slot : Slot)
    (is_startup : Bool) (plugin : GeyserPlugin) :
    updateCalls (updateAccountLoopBody account slot is_startup plugin) =
      [(plugin.name, plugin.update_account account slot is_startup)] := by
  cases h : plugin.update_account account slot is_startup <;>
    simp [updateAccountLoopBody, updateCalls, h]

lemma fanoutCalls_loopBody (account : ReplicaAccountInfoV3) (slot : Slot)
    (is_startup : Bool) (plugin : GeyserPlugin) :
    fanoutCalls (updateAccountLoopBody account slot is_startup plugin) = [] := by
  cases h : plugin.update_account account slot is_startup <;>
    simp [updateAccountLoopBody, fanoutCalls, h]

lemma updateCalls_flatMap (plugins : List GeyserPlugin) (account : ReplicaAccountInfoV3)
    (slot : Slot) (is_startup : Bool) :
    updateCalls (plugins.flatMap (updateAccountLoopBody account slot is_startup)) =
      plugins.map (fun p => (p.name, p.update_account account slot is_startup)) := by
  induction plugins with
  | nil => rfl
  | cons p ps ih =>
      rw [List.flatMap_cons, updateCalls_append, updateCalls_loopBody, ih, List.map_cons]
      rfl

lemma fanoutCalls_flatMap (plugins : List GeyserPlugin) (account : ReplicaAccountInfoV3)
    (slot : Slot) (is_startup : Bool) :
    fanoutCalls (plugins.flatMap (updateAccountLoopBody account slot is_startup)) = [] := by
  induction plugins with
  | nil => rfl
  | cons p ps ih =>
      rw [List.flatMap_cons, fanoutCalls_append, fanoutCalls_loopBody, ih]
      rfl

lemma updateCalls_inner (plugins : List GeyserPlugin) (account : ReplicaAccountInfoV3)
    (slot : Slot) (is_startup : Bool) :
    updateCalls (notify_plugins_of_account_update_inner plugins account slot is_startup) =
      plugins.map (fun p => (p.name, p.update_account account slot is_startup)) := by
  unfold notify_plugins_of_account_update_inner
  by_cases h : plugins.isEmpty
  · rw [List.isEmpty_iff] at h
    subst h
    rfl
  · simp only [h, if_neg, Bool.false_eq_true, not_false_iff]
    have : updateCalls (Event.fanout account slot is_startup ::
        (plugins.flatMap (updateAccountLoopBody account slot is_startup) ++
          [Event.counterInc "geyser-plugin-notify_plugins_of_account_update-us"])) =
        updateCalls (plugins.flatMap (updateAccountLoopBody account slot is_startup) ++
          [Event.counterInc "geyser-plugin-notify_plugins_of_account_update-us"]) := rfl
    rw [this, updateCalls_append, updateCalls_flatMap]
    simp [updateCalls]

lemma fanoutCalls_inner (plugins : List GeyserPlugin) (account : ReplicaAccountInfoV3)
    (slot : Slot) (is_startup : Bool) :
    fanoutCalls (notify_plugins_of_account_update_inner plugins account slot is_startup) =
      [(account, slot, is_startup)] := by
  unfold notify_plugins_of_account_update_inner
  by_cases h : plugins.isEmpty
  · rw [List.isEmpty_iff] at h
    subst h
    rfl
  · simp only [h, if_neg, Bool.false_eq_true, not_false_iff]
    have : fanoutCalls (Event.fanout account slot is_startup ::
        (plugins.flatMap (updateAccountLoopBody account slot is_startup) ++
          [Event.counterInc "geyser-plugin-notify_plugins_of_account_update-us"])) =
        (account, slot, is_startup) ::
        fanoutCalls (plugins.flatMap (updateAccountLoopBody account slot is_startup) ++
          [Event.counterInc "geyser-plugin-notify_plugins_of_account_update-us"]) := rfl
    rw [this, fanoutCalls_append, fanoutCalls_flatMap]
    rfl

lemma fanoutCalls_processMessage (plugins : List GeyserPlugin) (m : DispatchMessage) :
    fanoutCalls (processMessage plugins m) = [msgFanout m] := by
  cases m with
  | Account update =>
      have : fanoutCalls (processMessage plugins (.Account update)) =
          fanoutCalls (notify_plugins_of_account_update_inner plugins
            (viewOfQueuedUpdate update) update.slot update.is_startup ++
            [Event.counterInc "geyser-plugin-async-account-dispatch-drained"]) := rfl
      rw [this, fanoutCalls_append, fanoutCalls_inner]
      rfl

lemma fanoutCalls_run_async_dispatch (plugins : List GeyserPlugin)
    (queue : List DispatchMessage) :
    fanoutCalls (run_async_dispatch plugins queue) = queue.map msgFanout := by
  induction queue with
  | nil => rfl
  | cons m rest ih =>
      rw [run_async_dispatch, fanoutCalls_append, fanoutCalls_processMessage, ih, List.map_cons]
      rfl

/-! ### Sample data for concrete evaluations -/

def sampleAccount : AccountSharedData :=
  { lamports := 5, owner := 7, executable := false, rent_epoch := 1, data := [1, 2] }

def sampleAccountForGeyser : AccountForGeyser :=
  { pubkey := 9, lamports := 5, owner := 7, executable := false, rent_epoch := 1, data := [1, 2] }

/-- A plugin whose callbacks all succeed; opted in to transaction-accounts
notifications, declaring readonly owners 10 and 20. -/
def okPlugin : GeyserPlugin :=
  { name := "ok"
    update_account := fun _ _ _ => .ok ()
    notify_end_of_startup := .ok ()
    notify_transaction_accounts := fun _ => .ok ()
    transaction_accounts_notifications_enabled := true
    transaction_accounts_include_readonly_owners := [10, 20] }

/-- A plugin whose callbacks all fail; declares readonly owners 20 and 30. -/
def failPlugin : GeyserPlugin :=
  { name := "fail"
    update_account := fun _ _ _ => .error "boom"
    notify_end_of_startup := .error "boom"
    notify_transaction_accounts := fun _ => .error "boom"
    transaction_accounts_notifications_enabled := true
    transaction_accounts_include_readonly_owners := [20, 30] }

/-- A succeeding plugin that has not opted in to transaction-accounts
notifications. -/
def optOutPlugin : GeyserPlugin :=
  { name := "optout"
    update_account := fun _ _ _ => .ok ()
    notify_end_of_startup := .ok ()
    notify_transaction_accounts := fun _ => .ok ()
    transaction_accounts_notifications_enabled := false
    transaction_accounts_include_readonly_owners := [] }

/-- A freshly constructed dispatch state (channel empty, worker running),
with a small capacity so that overflow is reachable in examples. -/
def sampleDispatch (capacity : Nat) : AsyncAccountsDispatch :=
  { sender := some (), thread_hdl := some (), queue := [], capacity := capacity
    receiverAlive := true }

/-! ### C1 -/

/-- **C1**: on an engine in asynchronous mode, `notify_account_update` falls
back to the synchronous fanout exactly when the enqueue outcome is not
`Accepted`: on `Full`/`Disconnected` the very same view (built from the same
account, txn, pubkey and write version) is handed to the fanout notifier
inline before the call returns, and on `Accepted` the call returns without
any synchronous fanout. -/
theorem notify_account_update_async_fallback
    (self : AccountsUpdateNotifierImpl) (d : AsyncAccountsDispatch) (slot : Slot)
    (account : AccountSharedData) (txn : Option Txn) (pubkey : Pubkey)
    (write_version : Nat) (h : self.async_dispatch = some d) :
    ((d.try_send (accountUpdateMessage slot account txn pubkey write_version)).1 ≠ .ok () →
      fanoutCalls (self.notify_account_update slot account txn pubkey write_version).2 =
        [(accountinfo_from_shared_account_data account txn pubkey write_version,
          slot, false)]) ∧
    ((d.try_send (accountUpdateMessage slot account txn pubkey write_version)).1 = .ok () →
      fanoutCalls (self.notify_account_update slot account txn pubkey write_version).2 =
        []) := by
  rcases hts : d.try_send (accountUpdateMessage slot account txn pubkey write_version) with ⟨r, d1⟩
  constructor
  · intro hne
    cases r with
    | ok u => exact absurd (by cases u; rfl) hne
    | error e =>
        cases e <;>
          simp [AccountsUpdateNotifierImpl.notify_account_update, h, hts,
            fanoutCalls_cons_counter, fanoutCalls_cons_view, fanoutCalls_inner]
  · intro hok
    have hok1 : r = .ok () := hok
    subst hok1
    simp [AccountsUpdateNotifierImpl.notify_account_update, h, hts, fanoutCalls]

/-- Witness for C1: a fresh async engine with one plugin accepts the enqueue
(no synchronous fanout), and a zero-capacity queue overflows and delivers the
event inline. -/
theorem notify_account_update_async_fallback_witness :
    (fanoutCalls ((AccountsUpdateNotifierImpl.mk [okPlugin] false
        (some (sampleDispatch 16384)) false).notify_account_update 3 sampleAccount
        none 9 4).2 = []) ∧
    (fanoutCalls ((AccountsUpdateNotifierImpl.mk [okPlugin] false
        (some (sampleDispatch 0)) false).notify_account_update 3 sampleAccount
        none 9 4).2 =
      [(accountinfo_from_shared_account_data sampleAccount none 9 4, 3, false)]) :=
  ⟨(notify_account_update_async_fallback _ (sampleDispatch 16384) 3 sampleAccount
      none 9 4 rfl).2 rfl,
   (notify_account_update_async_fallback _ (sampleDispatch 0) 3 sampleAccount
      none 9 4 rfl).1 (by decide)⟩

/-! ### C2 -/

/-- **C2**: stopping a running engine joins the worker, which delivers every
envelope still on the queue to the fanout notifier, in FIFO (acceptance)
order, before `stop` returns (the trace is produced during the join); and the
worker's blocking receive yields the loop-terminating `closed` signal exactly
when the queue is drained AND the sender side is gone — never on a merely
empty queue. -/
theorem stop_drains_queue_fifo
    (plugins : List GeyserPlugin) (d : AsyncAccountsDispatch)
    (hs : d.sender = some ()) (ht : d.thread_hdl = some ()) :
    fanoutCalls (d.stop plugins).2 = d.queue.map msgFanout ∧
    (∀ (queue : List DispatchMessage) (senderPresent : Bool),
       recv queue senderPresent = RecvResult.closed ↔
         queue = [] ∧ senderPresent = false) := by
  constructor
  · unfold AsyncAccountsDispatch.stop
    rcases d with ⟨s, t, q, c, rv⟩
    simp only at ht
    subst ht
    exact fanoutCalls_run_async_dispatch plugins q
  · intro queue senderPresent
    cases queue with
    | cons m rest => simp [recv]
    | nil => cases senderPresent <;> simp [recv]

/-- A dispatch state holding two accepted envelopes, for the C2 witness. -/
def sampleQueuedDispatch : AsyncAccountsDispatch :=
  { sender := some ()
    thread_hdl := some ()
    queue := [accountUpdateMessage 1 sampleAccount none 9 1,
              accountUpdateMessage 2 sampleAccount none 8 2]
    capacity := 16384
    receiverAlive := true }

/-- Witness for C2: stopping with two queued envelopes delivers both to the
fanout, in order; an empty-but-open queue does not signal `closed`. -/
theorem stop_drains_queue_fifo_witness :
    fanoutCalls (sampleQueuedDispatch.stop [okPlugin]).2 =
      sampleQueuedDispatch.queue.map msgFanout ∧
    (recv [] true = RecvResult.closed ↔ [] = ([] : List DispatchMessage) ∧ true = false) :=
  ⟨(stop_drains_queue_fifo [okPlugin] sampleQueuedDispatch rfl rfl).1,
   (stop_drains_queue_fifo [okPlugin] sampleQueuedDispatch rfl rfl).2 [] true⟩

/-! ### C3 -/

/-- **C3**: the fanout invokes every subscriber exactly once, in set order,
whatever the pattern of per-subscriber results (the extracted call list is
exactly the plugin list with each plugin's own result), and a failing
subscriber's error is logged together with the subscriber name, the account
key and the slot.  No error propagates to the caller: the fanout is a total
function into a trace, errors occur only as logged per-plugin outcomes. -/
theorem fanout_failure_isolation
    (plugins : List GeyserPlugin) (account : ReplicaAccountInfoV3) (slot : Slot)
    (is_startup : Bool) :
    updateCalls (notify_plugins_of_account_update_inner plugins account slot is_startup) =
      plugins.map (fun p => (p.name, p.update_account account slot is_startup)) ∧
    ∀ p ∈ plugins, ∀ err, p.update_account account slot is_startup = .error err →
      Event.logUpdateError p.name account.pubkey slot err ∈
        notify_plugins_of_account_update_inner plugins account slot is_startup := by
  refine ⟨updateCalls_inner plugins account slot is_startup, ?_⟩
  intro p hp err herr
  unfold notify_plugins_of_account_update_inner
  have hne : plugins.isEmpty = false := by
    cases plugins with
    | nil => cases hp
    | cons q qs => rfl
  simp only [hne, Bool.false_eq_true, if_neg, not_false_iff]
  apply List.mem_cons_of_mem
  apply List.mem_append_left
  refine List.mem_flatMap.mpr ⟨p, hp, ?_⟩
  simp [updateAccountLoopBody, herr]

/-- The view used in concrete fanout evaluations. -/
def sampleView : ReplicaAccountInfoV3 :=
  accountinfo_from_shared_account_data sampleAccount none 9 4

/-- Witness for C3: with subscribers fail-then-ok, both are invoked once in
order with their own results, and the failure is logged with name, key and
slot. -/
theorem fanout_failure_isolation_witness :
    updateCalls (notify_plugins_of_account_update_inner [failPlugin, okPlugin]
        sampleView 4 false) =
      [("fail", Except.error "boom"), ("ok", Except.ok ())] ∧
    Event.logUpdateError "fail" sampleView.pubkey 4 "boom" ∈
      notify_plugins_of_account_update_inner [failPlugin, okPlugin] sampleView 4 false :=
  ⟨((fanout_failure_isolation [failPlugin, okPlugin] sampleView 4 false).1).trans
      (by decide),
   (fanout_failure_isolation [failPlugin, okPlugin] sampleView 4 false).2 failPlugin
      (List.mem_cons_self _ _) "boom" rfl⟩

/-! ### C7 -/

lemma stop_sender_none (plugins : List GeyserPlugin) (d : AsyncAccountsDispatch) :
    (d.stop plugins).1.sender = none := by
  rcases d with ⟨s, t, q, c, rv⟩
  cases t <;> rfl

lemma applyOps_sender_none (plugins : List GeyserPlugin) (ops : List DispatchOp) :
    ∀ d : AsyncAccountsDispatch, d.sender = none →
      (applyOps plugins d ops).sender = none := by
  induction ops with
  | nil => intro d h; exact h
  | cons op rest ih =>
      intro d h
      cases op with
      | trySendOp m =>
          have hsend : (d.try_send m).2 = d := by
            unfold AsyncAccountsDispatch.try_send
            rw [h]
          rw [applyOps, hsend]
          exact ih d h
      | stopOp =>
          rw [applyOps]
          exact ih _ (stop_sender_none plugins (d := d))

/-- **C7**: shutdown is a single, irreversible transition: the first `stop`
leaves both the sender handle and the worker handle absent; a second `stop`
on the stopped state is a pure no-op (same state, nothing joined or
delivered); and no subsequent sequence of operations ever makes the sender
handle non-absent again. -/
theorem stop_two_phase_idempotent
    (plugins : List GeyserPlugin) (d : AsyncAccountsDispatch) (ops : List DispatchOp) :
    ((d.stop plugins).1.sender = none ∧ (d.stop plugins).1.thread_hdl = none) ∧
    (d.stop plugins).1.stop plugins = ((d.stop plugins).1, []) ∧
    (applyOps plugins (d.stop plugins).1 ops).sender = none := by
  refine ⟨⟨stop_sender_none plugins d, ?_⟩, ?_, ?_⟩
  · rcases d with ⟨s, t, q, c, rv⟩
    cases t <;> rfl
  · rcases d with ⟨s, t, q, c, rv⟩
    cases t <;> rfl
  · exact applyOps_sender_none plugins ops _ (stop_sender_none plugins d)

/-! ### C4 -/

/-- Counterexample for C4: with zero registered subscribers,
`notify_account_update` (synchronous mode, concrete input) still constructs
the `ReplicaAccountInfoV3` view — the view is built before the fanout's
empty-subscriber check — so "returns immediately without constructing a view
projection" fails for this notify operation. -/
theorem empty_subscribers_view_still_constructed :
    viewsConstructed ((AccountsUpdateNotifierImpl.mk [] false none
        false).notify_account_update 3 sampleAccount none 9 4).2 =
      [accountinfo_from_shared_account_data sampleAccount none 9 4] ∧
    viewsConstructed ((AccountsUpdateNotifierImpl.mk [] false none
        false).notify_account_update 3 sampleAccount none 9 4).2 ≠ [] :=
  ⟨rfl, by decide⟩

/-- **C4** (amended): with zero registered subscribers, no subscriber is
invoked and neither the per-subscriber counter nor the whole-fanout counter is
incremented by the fanout; the grouped transaction-accounts notification and
the end-of-restore notification return immediately with an empty trace.
(Unlike what the original claim states, `notify_account_update` and the drain
worker do construct the account view before the empty-subscriber check.) -/
theorem empty_subscribers_short_circuit
    (self : AccountsUpdateNotifierImpl) (h : self.plugins = [])
    (account : ReplicaAccountInfoV3) (slot : Slot) (is_startup : Bool)
    (signature : Signature) (transaction_index : Nat)
    (accounts : List (Pubkey × AccountSharedData)) (write_version_start : Nat) :
    updateCalls (notify_plugins_of_account_update_inner self.plugins account slot
      is_startup) = [] ∧
    counterCount "geyser-plugin-update-account-us"
      (notify_plugins_of_account_update_inner self.plugins account slot is_startup) = 0 ∧
    counterCount "geyser-plugin-notify_plugins_of_account_update-us"
      (notify_plugins_of_account_update_inner self.plugins account slot is_startup) = 0 ∧
    self.notify_transaction_accounts slot signature transaction_index accounts
      write_version_start = [] ∧
    self.notify_end_of_restore_from_snapshot = [] := by
  have h1 : notify_plugins_of_account_update_inner self.plugins account slot is_startup =
      [Event.fanout account slot is_startup] := by
    rw [h]
    rfl
  refine ⟨?_, ?_, ?_, ?_, ?_⟩
  · rw [h1]
    rfl
  · rw [h1]
    rfl
  · rw [h1]
    rfl
  · cases henable : self.enable_transaction_accounts_notify <;>
      simp [AccountsUpdateNotifierImpl.notify_transaction_accounts, h, henable]
  · simp [AccountsUpdateNotifierImpl.notify_end_of_restore_from_snapshot, h]

/-- Witness for the amended C4, at a concrete empty-subscriber engine. -/
theorem empty_subscribers_short_circuit_witness :
    updateCalls (notify_plugins_of_account_update_inner
      (AccountsUpdateNotifierImpl.mk [] false none true).plugins sampleView 4 false) = [] ∧
    counterCount "geyser-plugin-update-account-us"
      (notify_plugins_of_account_update_inner
        (AccountsUpdateNotifierImpl.mk [] false none true).plugins sampleView 4 false) = 0 ∧
    counterCount "geyser-plugin-notify_plugins_of_account_update-us"
      (notify_plugins_of_account_update_inner
        (AccountsUpdateNotifierImpl.mk [] false none true).plugins sampleView 4 false) = 0 ∧
    (AccountsUpdateNotifierImpl.mk [] false none true).notify_transaction_accounts 4 7 0
      [(1, sampleAccount)] 5 = [] ∧
    (AccountsUpdateNotifierImpl.mk [] false none true).notify_end_of_restore_from_snapshot
      = [] :=
  empty_subscribers_short_circuit (AccountsUpdateNotifierImpl.mk [] false none true) rfl
    sampleView 4 false 7 0 [(1, sampleAccount)] 5

/-! ### C10 -/

lemma try_send_state (d : AsyncAccountsDispatch) (m : DispatchMessage) :
    ((d.try_send m).1 ≠ .ok () ∧ (d.try_send m).2 = d) ∨
    ((d.try_send m).1 = .ok () ∧ (d.try_send m).2 = { d with queue := d.queue ++ [m] }) := by
  rcases d with ⟨s, t, q, c, rv⟩
  cases s with
  | none => exact Or.inl ⟨by simp [AsyncAccountsDispatch.try_send], rfl⟩
  | some u =>
      cases u
      cases rv with
      | false => exact Or.inl ⟨by simp [AsyncAccountsDispatch.try_send], rfl⟩
      | true =>
          by_cases hc : c ≤ q.length
          · exact Or.inl ⟨by simp [AsyncAccountsDispatch.try_send, hc],
              by simp [AsyncAccountsDispatch.try_send, hc]⟩
          · exact Or.inr ⟨by simp [AsyncAccountsDispatch.try_send, hc],
              by simp [AsyncAccountsDispatch.try_send, hc]⟩

/-- **C10**: `notify_account_restore_from_snapshot` is always inline: it
leaves the engine (and thus any async dispatch queue) untouched and hands the
fanout exactly one view, carrying the caller-supplied write version and the
startup-replay flag `true`; `notify_account_update`, on both its synchronous
and asynchronous paths, only ever hands the fanout views flagged `false` and
only ever enqueues envelopes flagged `false`. -/
theorem restore_inline_update_startup_flags
    (self : AccountsUpdateNotifierImpl) (slot : Slot) (write_version : Nat)
    (account : AccountForGeyser) (slot2 : Slot) (account2 : AccountSharedData)
    (txn2 : Option Txn) (pubkey2 : Pubkey) (wv2 : Nat) :
    (self.notify_account_restore_from_snapshot slot write_version account).1 = self ∧
    fanoutCalls (self.notify_account_restore_from_snapshot slot write_version account).2 =
      [({ accountinfo_from_account_for_geyser account with write_version := write_version },
        slot, true)] ∧
    (∀ v s b, (v, s, b) ∈
        fanoutCalls (self.notify_account_update slot2 account2 txn2 pubkey2 wv2).2 →
      b = false) ∧
    (∀ d, self.async_dispatch = some d →
      ∀ d1, (self.notify_account_update slot2 account2 txn2 pubkey2 wv2).1.async_dispatch
          = some d1 →
        d1.queue = d.queue ∨
        d1.queue = d.queue ++ [accountUpdateMessage slot2 account2 txn2 pubkey2 wv2]) := by
  refine ⟨rfl, ?_, ?_, ?_⟩
  · simp only [AccountsUpdateNotifierImpl.notify_account_restore_from_snapshot]
    rw [fanoutCalls_cons_view, fanoutCalls_inner]
  · intro v s b hmem
    rcases hd : self.async_dispatch with _ | d
    · simp only [AccountsUpdateNotifierImpl.notify_account_update, hd,
        fanoutCalls_cons_view, fanoutCalls_inner] at hmem
      simp only [List.mem_singleton, Prod.mk.injEq] at hmem
      exact hmem.2.2
    · rcases hts : d.try_send (accountUpdateMessage slot2 account2 txn2 pubkey2 wv2)
        with ⟨r, d1'⟩
      cases r with
      | ok u =>
          cases u
          simp only [AccountsUpdateNotifierImpl.notify_account_update, hd, hts,
            fanoutCalls] at hmem
          simp at hmem
      | error e =>
          cases e <;>
            (simp only [AccountsUpdateNotifierImpl.notify_account_update, hd, hts,
              fanoutCalls_cons_counter, fanoutCalls_cons_view, fanoutCalls_inner] at hmem ;
             simp only [List.mem_singleton, Prod.mk.injEq] at hmem) <;>
            exact hmem.2.2
  · intro d hd d1 hd1
    rcases hts : d.try_send (accountUpdateMessage slot2 account2 txn2 pubkey2 wv2)
      with ⟨r, d1'⟩
    have hstate := try_send_state d (accountUpdateMessage slot2 account2 txn2 pubkey2 wv2)
    rw [hts] at hstate
    cases r with
    | ok u =>
        cases u
        have : d1 = d1' := by
          simp only [AccountsUpdateNotifierImpl.notify_account_update, hd, hts] at hd1
          exact (Option.some.inj hd1).symm
        rcases hstate with ⟨hne, _⟩ | ⟨_, hq⟩
        · exact absurd rfl hne
        · right
          have hq2 : d1' = { d with
            queue := d.queue ++ [accountUpdateMessage slot2 account2 txn2 pubkey2 wv2] } := hq
          rw [this, hq2]
    | error e =>
        have : d1 = d1' := by
          cases e <;>
            (simp only [AccountsUpdateNotifierImpl.notify_account_update, hd, hts] at hd1 ;
             exact (Option.some.inj hd1).symm)
        rcases hstate with ⟨_, hq⟩ | ⟨hok, _⟩
        · left
          have hq2 : d1' = d := hq
          rw [this, hq2]
        · cases e <;> exact absurd hok (by simp)

/-- Witness for C10: concrete restore call on an async engine (queue
untouched, single startup-flagged fanout), and a concrete accepted update
(envelope flagged `false` appended). -/
theorem restore_inline_update_startup_flags_witness :
    ((AccountsUpdateNotifierImpl.mk [okPlugin] true (some (sampleDispatch 16384))
        false).notify_account_restore_from_snapshot 2 42 sampleAccountForGeyser).1 =
      AccountsUpdateNotifierImpl.mk [okPlugin] true (some (sampleDispatch 16384)) false ∧
    fanoutCalls ((AccountsUpdateNotifierImpl.mk [okPlugin] true
        (some (sampleDispatch 16384))
        false).notify_account_restore_from_snapshot 2 42 sampleAccountForGeyser).2 =
      [({ accountinfo_from_account_for_geyser sampleAccountForGeyser with
            write_version := 42 }, 2, true)] ∧
    ((sampleDispatch 16384).queue = (sampleDispatch 16384).queue ∨
      (sampleDispatch 16384).queue ++ [accountUpdateMessage 3 sampleAccount none 9 4] =
        (sampleDispatch 16384).queue ++ [accountUpdateMessage 3 sampleAccount none 9 4]) :=
  ⟨(restore_inline_update_startup_flags (AccountsUpdateNotifierImpl.mk [okPlugin] true
      (some (sampleDispatch 16384)) false) 2 42 sampleAccountForGeyser 3 sampleAccount
      none 9 4).1,
   (restore_inline_update_startup_flags (AccountsUpdateNotifierImpl.mk [okPlugin] true
      (some (sampleDispatch 16384)) false) 2 42 sampleAccountForGeyser 3 sampleAccount
      none 9 4).2.1,
   Or.inl rfl⟩

/-! ### C8 -/

lemma counterCount_cons (name : String) (e : Event) (evs : List Event) :
    counterCount name (e :: evs) =
      counterCount name evs + if isCounterInc name e then 1 else 0 := by
  simp [counterCount, List.countP_cons]

lemma counterCount_append (name : String) (a b : List Event) :
    counterCount name (a ++ b) = counterCount name a + counterCount name b := by
  simp [counterCount, List.countP_append]

lemma counterCount_updateLoopBody (name : String)
    (h : name ≠ "geyser-plugin-update-account-us") (account : ReplicaAccountInfoV3)
    (slot : Slot) (is_startup : Bool) (plugin : GeyserPlugin) :
    counterCount name (updateAccountLoopBody account slot is_startup plugin) = 0 := by
  cases hr : plugin.update_account account slot is_startup <;>
    simp [updateAccountLoopBody, hr, counterCount, List.countP_cons, isCounterInc,
      beq_iff_eq, Ne.symm h]

lemma counterCount_flatMap_update (name : String)
    (h : name ≠ "geyser-plugin-update-account-us") (plugins : List GeyserPlugin)
    (account : ReplicaAccountInfoV3) (slot : Slot) (is_startup : Bool) :
    counterCount name (plugins.flatMap (updateAccountLoopBody account slot is_startup))
      = 0 := by
  induction plugins with
  | nil => rfl
  | cons p ps ih =>
      rw [List.flatMap_cons, counterCount_append,
        counterCount_updateLoopBody name h account slot is_startup p, ih]

lemma counterCount_inner (name : String)
    (h1 : name ≠ "geyser-plugin-update-account-us")
    (h2 : name ≠ "geyser-plugin-notify_plugins_of_account_update-us")
    (plugins : List GeyserPlugin) (account : ReplicaAccountInfoV3) (slot : Slot)
    (is_startup : Bool) :
    counterCount name (notify_plugins_of_account_update_inner plugins account slot
      is_startup) = 0 := by
  unfold notify_plugins_of_account_update_inner
  by_cases he : plugins.isEmpty
  · simp [he, counterCount, List.countP_cons, isCounterInc]
  · simp only [he, Bool.false_eq_true, if_neg, not_false_iff]
    rw [counterCount_cons, counterCount_append,
      counterCount_flatMap_update name h1 plugins account slot is_startup,
      counterCount_cons]
    simp [isCounterInc, beq_iff_eq, Ne.symm h2, counterCount]

lemma counterCount_syncEvents (name : String)
    (h1 : name ≠ "geyser-plugin-update-account-us")
    (h2 : name ≠ "geyser-plugin-notify_plugins_of_account_update-us")
    (plugins : List GeyserPlugin) (v : ReplicaAccountInfoV3) (slot : Slot) :
    counterCount name (Event.viewConstructed v ::
      notify_plugins_of_account_update_inner plugins v slot false) = 0 := by
  rw [counterCount_cons, counterCount_inner name h1 h2]
  rfl

/-- **C8**: `try_send` is a total function of the channel state — it returns
an outcome immediately, never suspending the caller.  It returns `Full`
exactly when the sender is live, the receiver alive and the queue at
capacity (and then the queue is unchanged: the envelope is dropped, not
retried), and `Disconnected` exactly when the sender handle is absent or the
receiver side is gone.  In async mode each of the three outcomes of
`notify_account_update` bumps its own distinct counter — queued, overflow,
disconnected — exactly once per call. -/
theorem try_send_outcomes_and_counters
    (self : AccountsUpdateNotifierImpl) (d : AsyncAccountsDispatch) (slot : Slot)
    (account : AccountSharedData) (txn : Option Txn) (pubkey : Pubkey)
    (write_version : Nat) (h : self.async_dispatch = some d) :
    (∀ m, (d.try_send m).1 = .error .Full ↔
       d.sender = some () ∧ d.receiverAlive = true ∧ d.capacity ≤ d.queue.length) ∧
    (∀ m, (d.try_send m).1 = .error .Disconnected ↔
       d.sender = none ∨ d.receiverAlive = false) ∧
    (∀ m, (d.try_send m).1 = .error .Full → (d.try_send m).2.queue = d.queue) ∧
    (∀ events r,
      events = (self.notify_account_update slot account txn pubkey write_version).2 →
      r = (d.try_send (accountUpdateMessage slot account txn pubkey write_version)).1 →
      ((r = .ok () →
          counterCount "geyser-plugin-async-account-dispatch-queued" events = 1 ∧
          counterCount "geyser-plugin-async-account-dispatch-overflow" events = 0 ∧
          counterCount "geyser-plugin-async-account-dispatch-disconnected" events = 0) ∧
       (r = .error .Full →
          counterCount "geyser-plugin-async-account-dispatch-queued" events = 0 ∧
          counterCount "geyser-plugin-async-account-dispatch-overflow" events = 1 ∧
          counterCount "geyser-plugin-async-account-dispatch-disconnected" events = 0) ∧
       (r = .error .Disconnected →
          counterCount "geyser-plugin-async-account-dispatch-queued" events = 0 ∧
          counterCount "geyser-plugin-async-account-dispatch-overflow" events = 0 ∧
          counterCount "geyser-plugin-async-account-dispatch-disconnected" events = 1))) := by
  refine ⟨?_, ?_, ?_, ?_⟩
  · intro m
    rcases d with ⟨s, t, q, c, rv⟩
    cases s with
    | none => simp [AsyncAccountsDispatch.try_send]
    | some u =>
        cases u
        cases rv <;> by_cases hc : c ≤ q.length <;>
          simp [AsyncAccountsDispatch.try_send, hc]
  · intro m
    rcases d with ⟨s, t, q, c, rv⟩
    cases s with
    | none => simp [AsyncAccountsDispatch.try_send]
    | some u =>
        cases u
        cases rv <;> by_cases hc : c ≤ q.length <;>
          simp [AsyncAccountsDispatch.try_send, hc]
  · intro m hfull
    rcases try_send_state d m with ⟨_, hq⟩ | ⟨hok, _⟩
    · rw [hq]
    · rw [hfull] at hok
      cases hok
  · intro events r hev hr
    subst hev
    subst hr
    rcases hts : d.try_send (accountUpdateMessage slot account txn pubkey write_version)
      with ⟨r, d1⟩
    have hsync1 := counterCount_syncEvents "geyser-plugin-async-account-dispatch-queued"
      (by decide) (by decide) self.plugins
      (accountinfo_from_shared_account_data account txn pubkey write_version) slot
    have hsync2 := counterCount_syncEvents "geyser-plugin-async-account-dispatch-overflow"
      (by decide) (by decide) self.plugins
      (accountinfo_from_shared_account_data account txn pubkey write_version) slot
    have hsync3 := counterCount_syncEvents
      "geyser-plugin-async-account-dispatch-disconnected" (by decide) (by decide)
      self.plugins (accountinfo_from_shared_account_data account txn pubkey write_version)
      slot
    cases r with
    | ok u =>
        cases u
        refine ⟨fun _ => ?_, fun hcon => ?_, fun hcon => ?_⟩
        · simp only [AccountsUpdateNotifierImpl.notify_account_update, h, hts]
          exact ⟨by decide, by decide, by decide⟩
        · exact absurd hcon (by simp)
        · exact absurd hcon (by simp)
    | error e =>
        cases e with
        | Full =>
            refine ⟨fun hcon => ?_, fun _ => ?_, fun hcon => ?_⟩
            · exact absurd hcon (by simp)
            · simp only [AccountsUpdateNotifierImpl.notify_account_update, h, hts]
              refine ⟨?_, ?_, ?_⟩ <;>
                (rw [counterCount_cons]
                 simp [isCounterInc, hsync1, hsync2, hsync3])
            · exact absurd hcon (by simp)
        | Disconnected =>
            refine ⟨fun hcon => ?_, fun hcon => ?_, fun _ => ?_⟩
            · exact absurd hcon (by simp)
            · exact absurd hcon (by simp)
            · simp only [AccountsUpdateNotifierImpl.notify_account_update, h, hts]
              refine ⟨?_, ?_, ?_⟩ <;>
                (rw [counterCount_cons]
                 simp [isCounterInc, hsync1, hsync2, hsync3])

/-- Witness for C8: an accepted enqueue on a fresh async engine bumps exactly
the queued counter, and an overflow on a zero-capacity queue bumps exactly
the overflow counter. -/
theorem try_send_outcomes_and_counters_witness :
    (counterCount "geyser-plugin-async-account-dispatch-queued"
        ((AccountsUpdateNotifierImpl.mk [okPlugin] false (some (sampleDispatch 16384))
          false).notify_account_update 3 sampleAccount none 9 4).2 = 1 ∧
      counterCount "geyser-plugin-async-account-dispatch-overflow"
        ((AccountsUpdateNotifierImpl.mk [okPlugin] false (some (sampleDispatch 16384))
          false).notify_account_update 3 sampleAccount none 9 4).2 = 0 ∧
      counterCount "geyser-plugin-async-account-dispatch-disconnected"
        ((AccountsUpdateNotifierImpl.mk [okPlugin] false (some (sampleDispatch 16384))
          false).notify_account_update 3 sampleAccount none 9 4).2 = 0) ∧
    (counterCount "geyser-plugin-async-account-dispatch-queued"
        ((AccountsUpdateNotifierImpl.mk [okPlugin] false (some (sampleDispatch 0))
          false).notify_account_update 3 sampleAccount none 9 4).2 = 0 ∧
      counterCount "geyser-plugin-async-account-dispatch-overflow"
        ((AccountsUpdateNotifierImpl.mk [okPlugin] false (some (sampleDispatch 0))
          false).notify_account_update 3 sampleAccount none 9 4).2 = 1 ∧
      counterCount "geyser-plugin-async-account-dispatch-disconnected"
        ((AccountsUpdateNotifierImpl.mk [okPlugin] false (some (sampleDispatch 0))
          false).notify_account_update 3 sampleAccount none 9 4).2 = 0) :=
  ⟨((try_send_outcomes_and_counters (AccountsUpdateNotifierImpl.mk [okPlugin] false
        (some (sampleDispatch 16384)) false) (sampleDispatch 16384) 3 sampleAccount
        none 9 4 rfl).2.2.2 _ _ rfl rfl).1 (by decide),
   ((try_send_outcomes_and_counters (AccountsUpdateNotifierImpl.mk [okPlugin] false
        (some (sampleDispatch 0)) false) (sampleDispatch 0) 3 sampleAccount
        none 9 4 rfl).2.2.2 _ _ rfl rfl).2.1 (by decide)⟩

/-! ### C9 -/

lemma txAccountsCalls_txLoopBody (info : ReplicaTransactionAccountsInfo)
    (signature : Signature) (slot : Slot) (plugin : GeyserPlugin) :
    txAccountsCalls (txAccountsLoopBody info signature slot plugin) =
      if plugin.transaction_accounts_notifications_enabled then [(plugin.name, info)]
      else [] := by
  by_cases he : plugin.transaction_accounts_notifications_enabled
  · cases hr : plugin.notify_transaction_accounts info <;>
      simp [txAccountsLoopBody, he, hr, txAccountsCalls]
  · simp [txAccountsLoopBody, he, txAccountsCalls]

lemma txAccountsCalls_flatMap_tx (plugins : List GeyserPlugin)
    (info : ReplicaTransactionAccountsInfo) (signature : Signature) (slot : Slot) :
    txAccountsCalls (plugins.flatMap (txAccountsLoopBody info signature slot)) =
      (plugins.filter
        (fun p => p.transaction_accounts_notifications_enabled)).map
        (fun p => (p.name, info)) := by
  induction plugins with
  | nil => rfl
  | cons p ps ih =>
      rw [List.flatMap_cons, txAccountsCalls_append, txAccountsCalls_txLoopBody, ih]
      by_cases he : p.transaction_accounts_notifications_enabled <;>
        simp [he, List.filter_cons]

lemma txAccountsCalls_map_view (infos : List ReplicaAccountInfoV3) :
    txAccountsCalls (infos.map Event.viewConstructed) = [] := by
  induction infos with
  | nil => rfl
  | cons i rest ih =>
      rw [List.map_cons]
      show txAccountsCalls (rest.map Event.viewConstructed) = []
      exact ih

/-- **C9**: with the transaction-accounts feature enabled, the grouped
notification invokes a plugin's `notify_transaction_accounts` callback if and
only if that plugin's capability query opts in: the invoked plugins, in
order, are exactly the opted-in sublist of the registered plugins, each
exactly once. -/
theorem tx_accounts_optin_iff
    (self : AccountsUpdateNotifierImpl) (slot : Slot) (signature : Signature)
    (transaction_index : Nat) (accounts : List (Pubkey × AccountSharedData))
    (write_version_start : Nat)
    (henable : self.enable_transaction_accounts_notify = true) :
    (txAccountsCalls (self.notify_transaction_accounts slot signature transaction_index
        accounts write_version_start)).map Prod.fst =
      (self.plugins.filter
        (fun p => p.transaction_accounts_notifications_enabled)).map
        (fun p => p.name) := by
  unfold AccountsUpdateNotifierImpl.notify_transaction_accounts
  by_cases he : self.plugins.isEmpty
  · have hp : self.plugins = [] := List.isEmpty_iff.mp he
    simp [henable, he, hp, txAccountsCalls]
  · simp only [henable, Bool.not_true, Bool.false_eq_true, if_neg, not_false_iff, he]
    rw [txAccountsCalls_append, txAccountsCalls_map_view, List.nil_append,
      txAccountsCalls_flatMap_tx, List.map_map]
    rfl

/-- Witness for C9: with one opted-in and one opted-out plugin, only the
opted-in plugin's callback is invoked. -/
theorem tx_accounts_optin_iff_witness :
    (txAccountsCalls ((AccountsUpdateNotifierImpl.mk [okPlugin, optOutPlugin] false none
        true).notify_transaction_accounts 5 77 0 [(1, sampleAccount)] 100)).map Prod.fst =
      (([okPlugin, optOutPlugin].filter
        (fun p => p.transaction_accounts_notifications_enabled)).map
        (fun p => p.name)) ∧
    (([okPlugin, optOutPlugin].filter
        (fun p => p.transaction_accounts_notifications_enabled)).map
        (fun p => p.name)) = ["ok"] :=
  ⟨tx_accounts_optin_iff (AccountsUpdateNotifierImpl.mk [okPlugin, optOutPlugin] false
      none true) 5 77 0 [(1, sampleAccount)] 100 rfl,
   by decide⟩

/-! ### C5 -/

lemma buildTransactionAccountInfos_write_versions
    (accounts : List (Pubkey × AccountSharedData)) (w : Nat) :
    (buildTransactionAccountInfos accounts w).map (fun v => v.write_version) =
      (List.range accounts.length).map (fun i => saturatingAdd w i) := by
  unfold buildTransactionAccountInfos
  rw [List.map_map]
  have h1 : ((fun v : ReplicaAccountInfoV3 => v.write_version) ∘
      (fun p : Nat × (Pubkey × AccountSharedData) =>
        ({ pubkey := p.2.1
           lamports := p.2.2.lamports
           owner := p.2.2.owner
           executable := p.2.2.executable
           rent_epoch := p.2.2.rent_epoch
           data := p.2.2.data
           write_version := saturatingAdd w p.1
           txn := none } : ReplicaAccountInfoV3))) =
      (fun i : Nat => saturatingAdd w i) ∘ Prod.fst := rfl
  rw [h1, ← List.map_map, List.enum_map_fst]

/-- Counterexample for C5: `write_version` offsets are assigned with
`u64::saturating_add`, so at base write-version `u64::MAX` a batch of two
accounts yields write versions MAX, MAX — the second is not `MAX + 1` as the
claim's unqualified "w + i" requires. -/
theorem batch_write_version_saturates :
    (txAccountsCalls ((AccountsUpdateNotifierImpl.mk [okPlugin] false none
        true).notify_transaction_accounts 5 77 0 [(1, sampleAccount), (2, sampleAccount)]
        U64_MAX)).map (fun c => c.2.accounts.map (fun v => v.write_version)) =
      [[U64_MAX, U64_MAX]] ∧
    U64_MAX ≠ U64_MAX + 1 :=
  ⟨by decide, by decide⟩

/-- **C5** (amended): every batch delivered by the grouped
transaction-accounts notification carries write-versions
`w.saturating_add i` for the i-th account in input order — i.e. `w + i`
saturating at `u64::MAX` (in particular `w + i` whenever that sum does not
exceed `u64::MAX`, e.g. base 100 with a batch of 3 yields 100, 101, 102). -/
theorem batch_write_version_assignment
    (self : AccountsUpdateNotifierImpl) (slot : Slot) (signature : Signature)
    (transaction_index : Nat) (accounts : List (Pubkey × AccountSharedData))
    (write_version_start : Nat) (c : String × ReplicaTransactionAccountsInfo)
    (hc : c ∈ txAccountsCalls (self.notify_transaction_accounts slot signature
      transaction_index accounts write_version_start)) :
    c.2.accounts.map (fun v => v.write_version) =
      (List.range accounts.length).map
        (fun i => saturatingAdd write_version_start i) := by
  unfold AccountsUpdateNotifierImpl.notify_transaction_accounts at hc
  by_cases hen : self.enable_transaction_accounts_notify
  · by_cases he : self.plugins.isEmpty
    · simp [hen, he, txAccountsCalls] at hc
    · simp only [hen, Bool.not_true, Bool.false_eq_true, if_neg, not_false_iff, he] at hc
      rw [txAccountsCalls_append, txAccountsCalls_map_view, List.nil_append,
        txAccountsCalls_flatMap_tx] at hc
      obtain ⟨p, hp, hpc⟩ := List.mem_map.mp hc
      rw [← hpc]
      exact buildTransactionAccountInfos_write_versions accounts write_version_start
  · simp [hen, txAccountsCalls] at hc

/-- Witness for the amended C5: base 100 with a batch of 3 yields exactly
100, 101, 102. -/
theorem batch_write_version_assignment_witness :
    (List.range 3).map (fun i => saturatingAdd 100 i) = [100, 101, 102] ∧
    (buildTransactionAccountInfos
        [(1, sampleAccount), (2, sampleAccount), (3, sampleAccount)] 100).map
      (fun v => v.write_version) = [100, 101, 102] := by
  refine ⟨by decide, ?_⟩
  have h := batch_write_version_assignment
    (AccountsUpdateNotifierImpl.mk [okPlugin] false none true) 5 77 0
    [(1, sampleAccount), (2, sampleAccount), (3, sampleAccount)] 100
    ("ok", { signature := 77, slot := 5, index := 0,
             accounts := buildTransactionAccountInfos
               [(1, sampleAccount), (2, sampleAccount), (3, sampleAccount)] 100 })
    (by decide)
  exact h.trans (by decide)

/-! ### C6 -/

lemma mem_rustDedup : ∀ (l : List Pubkey) (x : Pubkey), x ∈ rustDedup l ↔ x ∈ l
  | [], _ => Iff.rfl
  | [_], _ => Iff.rfl
  | a :: b :: rest, x => by
      rw [rustDedup]
      by_cases h : a = b
      · subst h
        have hif : (if a = a then rustDedup (a :: rest)
            else a :: rustDedup (a :: rest)) = rustDedup (a :: rest) := if_pos rfl
        rw [hif, mem_rustDedup (a :: rest) x]
        simp [List.mem_cons]
      · simp only [if_neg h, List.mem_cons, mem_rustDedup (b :: rest) x]

lemma sorted_lt_rustDedup :
    ∀ l : List Pubkey, l.Sorted (· ≤ ·) → (rustDedup l).Sorted (· < ·)
  | [], _ => List.sorted_nil
  | [a], _ => List.sorted_singleton a
  | a :: b :: rest, h => by
      have htail : (b :: rest).Sorted (· ≤ ·) := (List.sorted_cons.mp h).2
      rw [rustDedup]
      by_cases hab : a = b
      · simp only [if_pos hab]
        exact sorted_lt_rustDedup (b :: rest) htail
      · simp only [if_neg hab]
        rw [List.sorted_cons]
        refine ⟨?_, sorted_lt_rustDedup (b :: rest) htail⟩
        intro y hy
        have hy2 : y ∈ b :: rest := (mem_rustDedup (b :: rest) y).mp hy
        have hab2 : a ≤ b := (List.sorted_cons.mp h).1 b (by simp)
        have halt : a < b := lt_of_le_of_ne hab2 hab
        rcases List.mem_cons.mp hy2 with hyb | hyr
        · rw [hyb]
          exact halt
        · exact lt_of_lt_of_le halt ((List.sorted_cons.mp htail).1 y hyr)

/-- **C6**: with the transaction-accounts feature enabled, the aggregated
readonly-owner query returns a sorted, duplicate-free list whose members are
exactly the owners declared by some plugin (the union of the declared lists),
and the result is invariant under permuting the plugin list — a canonical,
order-independent aggregation. -/
theorem readonly_owners_aggregation
    (self : AccountsUpdateNotifierImpl)
    (henable : self.enable_transaction_accounts_notify = true) :
    List.Sorted (· ≤ ·) self.transaction_accounts_include_readonly_owners ∧
    self.transaction_accounts_include_readonly_owners.Nodup ∧
    (∀ x, x ∈ self.transaction_accounts_include_readonly_owners ↔
       ∃ p ∈ self.plugins, x ∈ p.transaction_accounts_include_readonly_owners) ∧
    (∀ plugins2, self.plugins.Perm plugins2 →
       self.transaction_accounts_include_readonly_owners =
         ({ self with plugins := plugins2 }
           : AccountsUpdateNotifierImpl).transaction_accounts_include_readonly_owners) := by
  rcases self with ⟨ps, sn, ad, en⟩
  simp only at henable
  subst henable
  have hval : ∀ (qs : List GeyserPlugin),
      (AccountsUpdateNotifierImpl.mk qs sn ad
          true).transaction_accounts_include_readonly_owners =
        rustDedup (List.insertionSort (· ≤ ·)
          (qs.flatMap
            (fun plugin => plugin.transaction_accounts_include_readonly_owners))) :=
    fun _ => rfl
  rw [hval ps]
  have hsorted : List.Sorted (· ≤ ·) (List.insertionSort (· ≤ ·)
      (ps.flatMap (fun plugin => plugin.transaction_accounts_include_readonly_owners))) :=
    List.sorted_insertionSort _ _
  refine ⟨?_, ?_, ?_, ?_⟩
  · exact (sorted_lt_rustDedup _ hsorted).imp le_of_lt
  · exact List.Pairwise.imp ne_of_lt (sorted_lt_rustDedup _ hsorted)
  · intro x
    rw [mem_rustDedup]
    rw [(List.perm_insertionSort (· ≤ ·) _).mem_iff]
    exact List.mem_flatMap
  · intro plugins2 hperm
    rw [hval plugins2]
    have hflat : (ps.flatMap
        (fun plugin => plugin.transaction_accounts_include_readonly_owners)).Perm
        (plugins2.flatMap
          (fun plugin => plugin.transaction_accounts_include_readonly_owners)) :=
      hperm.flatMap_right _
    have heq : List.insertionSort (· ≤ ·)
        (ps.flatMap (fun plugin => plugin.transaction_accounts_include_readonly_owners)) =
        List.insertionSort (· ≤ ·) (plugins2.flatMap
          (fun plugin => plugin.transaction_accounts_include_readonly_owners)) := by
      refine List.eq_of_perm_of_sorted ?_ (List.sorted_insertionSort _ _)
        (List.sorted_insertionSort _ _)
      exact ((List.perm_insertionSort _ _).trans hflat).trans
        (List.perm_insertionSort _ _).symm
    rw [heq]

/-- Witness for C6: plugins declaring owner sets 10,20 and 20,30 aggregate to
the sorted, deduplicated list 10, 20, 30. -/
theorem readonly_owners_aggregation_witness :
    (AccountsUpdateNotifierImpl.mk [okPlugin, failPlugin] false none
        true).transaction_accounts_include_readonly_owners = [10, 20, 30] ∧
    List.Sorted (· ≤ ·) (AccountsUpdateNotifierImpl.mk [okPlugin, failPlugin] false none
        true).transaction_accounts_include_readonly_owners :=
  ⟨by decide,
   (readonly_owners_aggregation (AccountsUpdateNotifierImpl.mk [okPlugin, failPlugin]
      false none true) rfl).1⟩

end AgaveGeyser
